import Mathlib

/-!
Shallow embedding of the candidate / environment core of the `pdm` package
manager (`src/pdm/models/candidates.py`, `src/pdm/models/environment.py`),
with theorems settling the spec claims about it.
-/

namespace PDM

/-! ## Candidate equality (`Candidate.__eq__`, candidates.py lines 122-125)

`__eq__` branches on `self.req.is_named` only: a named requirement compares
`(name, version)`, any other requirement compares `(name, link)`.  We model
just the fields that `__eq__` reads. -/

/-- The fields of a `Candidate` read by `__eq__`: whether its requirement is
named, and its `name`, `version` and `link` attributes (each may be `None`). -/
structure EqCand where
  reqIsNamed : Bool
  name : Option String
  version : Option String
  link : Option String
  deriving DecidableEq, Repr

/-- Embedding of `Candidate.__eq__`: if `self.req.is_named`, compare name and
version; otherwise compare name and link.  Only the left operand's requirement
kind is consulted, exactly as in the source. -/
def candidateEq (a b : EqCand) : Bool :=
  if a.reqIsNamed then a.name == b.name && a.version == b.version
  else a.name == b.name && a.link == b.link

/-- A named candidate for `foo 1.0`. -/
def namedFoo : EqCand :=
  { reqIsNamed := true, name := some "foo", version := some "1.0", link := none }

/-- A link-based candidate for `foo 1.0` with a concrete download link. -/
def linkFoo : EqCand :=
  { reqIsNamed := false, name := some "foo", version := some "1.0"
    link := some "https://e.org/foo-1.0.tar.gz" }

/-! ## Activation scope (`Environment.activate`, environment.py lines 141-173)

`activate` is a `@contextmanager` generator.  It saves `PYTHONPATH`/`PATH`
(via vistir's `temp_environ`, which restores them in a `finally`), then
monkey-patches `pkg_resources.working_set`, `pkg_resources.evaluate_marker`,
`misc.is_local` / `req_uninstall.is_local` and `misc.site_packages`, yields,
and restores those four patched globals on the lines *after* the `yield`.
There is no `try/finally` around the `yield`, so when the body raises the
statements after `yield` never run; only `temp_environ`'s own `finally`
(environment variables) executes.  We embed the run of the context manager
against a body abstracted to its outcome (normal return or raise). -/

/-- The four process-wide globals patched by `activate`, abstracted to
identifiers: `pkg_resources.working_set`, `pkg_resources.evaluate_marker`,
`misc.is_local`/`req_uninstall.is_local`, and `misc.site_packages`. -/
structure Hooks where
  workingSet : Nat
  evalMarker : Nat
  isLocalHook : Nat
  sitePackages : Nat
  deriving DecidableEq, Repr

/-- Process-wide state touched by `activate`: the `PYTHONPATH` variable (may
be unset), the `PATH` variable, and the patched globals. -/
structure GState where
  pythonpath : Option String
  searchPath : String
  hooks : Hooks
  deriving DecidableEq, Repr

/-- The in-scope state: `PYTHONPATH` gets `purelib` prepended (or set),
`PATH` gets the interpreter directory and scripts directory prepended, and
the four globals are replaced by the environment's own versions. -/
def patchState (purelib scripts pyroot : String) (envHooks : Hooks)
    (g : GState) : GState :=
  { pythonpath := some (match g.pythonpath with
      | some old => purelib ++ ":" ++ old
      | none => purelib)
    searchPath := pyroot ++ ":" ++ scripts ++ ":" ++ g.searchPath
    hooks := envHooks }

/-- One run of the `activate` context manager, with the body abstracted to
whether it raises.  Mutations are applied in source order; the hook
restoration statements sit after the `yield` with no `try/finally`, so they
run only when `bodyRaises` is `false`, while `temp_environ` restores the two
environment variables in a `finally` in either case. -/
def activateRun (purelib scripts pyroot : String) (envHooks : Hooks)
    (bodyRaises : Bool) (g : GState) : GState :=
  let savedHooks := g.hooks
  let g1 := patchState purelib scripts pyroot envHooks g
  let g2 := if bodyRaises then g1 else { g1 with hooks := savedHooks }
  { g2 with pythonpath := g.pythonpath, searchPath := g.searchPath }

/-! ## `Candidate.get_metadata` (candidates.py lines 133-159)

`get_metadata` returns the memoized `self.metadata` when set; otherwise it
calls `self.environment.build(ireq, self.hashes)`, then (editable path)
checks that the requirement is a local directory or VCS location — raising
`RequirementError` otherwise — and reads the built artifact's metadata,
populating `name`/`version` when they were unset and updating `link`. -/

/-- Parsed distribution metadata: the fields `get_metadata` reads back
(`metadata.name`, `metadata.version`). -/
structure Dist where
  name : String
  version : String
  deriving DecidableEq, Repr

/-- The `Candidate` state read and written by `get_metadata`, plus a counter
of how many times `Environment.build` has been invoked on this candidate (the
build side effect being the subject of the idempotence claim). -/
structure MCand where
  editable : Bool
  isLocalDir : Bool
  isVcs : Bool
  name : Option String
  version : Option String
  metadata : Option Dist
  link : Option String
  buildCount : Nat
  deriving DecidableEq, Repr

/-- Errors raised on `get_metadata`'s paths: the `RequirementError` for
editable requirements that are neither local directories nor VCS locations,
and a propagated build failure. -/
inductive MetaErr
  | requirementError
  | buildFailure
  deriving DecidableEq, Repr

/-- Modelled from the spec: `Environment.build`'s collaborators
(`pdm.builders`, `pip` shims, `distlib` parsing) are not under `src/`; per
spec section 4.8 a successful build returns the produced artifact's path and
failures propagate, and parsing the artifact yields its metadata.  A build
outcome is therefore either a failure or the parsed metadata of the produced
artifact. -/
abbrev BuildOutcome : Type := Except Unit Dist

/-- Embedding of `Candidate.get_metadata`.  The result pairs the call's
outcome (returned metadata or raised error) with the candidate state after
the call, so that side effects on error paths stay observable.  `buildRes` is
the outcome `Environment.build` would produce on this invocation and
`newLink` is `ireq.link` after link population. -/
def getMetadata (buildRes : BuildOutcome) (newLink : Option String)
    (c : MCand) : Except MetaErr (Option Dist) × MCand :=
  match c.metadata with
  | some m => (.ok (some m), c)
  | none =>
    let c1 := { c with buildCount := c.buildCount + 1 }
    match buildRes with
    | .error _ => (.error .buildFailure, c1)
    | .ok d =>
      if c1.editable && (!c1.isLocalDir && !c1.isVcs) then
        (.error .requirementError, c1)
      else
        let name := match c1.name with
          | some n => some n
          | none => some d.name
        let version := match c1.version with
          | some v => some v
          | none => some d.version
        (.ok (some d),
         { c1 with metadata := some d, name := name, version := version
                   link := newLink })

/-! ## `Environment.python_executable` (environment.py lines 84-126)

The interpreter is resolved by: (1) the configured path when probing it with
`get_python_version` succeeds (the exception is swallowed); (2) otherwise
`shutil.which("python")` — when it finds a path, that path is probed (this
probe's exception is *not* swallowed) and returned with no compatibility
check; (3) only when no `python` is on the search path, the first runtime
found by `pythonfinder` whose version satisfies `python_requires`; (4) else
`sys.executable` when its version satisfies `python_requires`; else
`NoPythonVersion` naming the constraint.  Steps 2-4 persist the chosen path
into the configuration; step 1 returns before the persistence block. -/

/-- Inputs of the interpreter-resolution chain: the configured `python` key,
version probing (`get_python_version`; `none` models a raised exception),
`shutil.which("python")`, the runtimes enumerated by `pythonfinder` with
their probed versions, the running interpreter, the `python_requires`
containment test and its rendering for the error message. -/
structure PyWorld where
  configPython : Option String
  probe : String → Option String
  whichPython : Option String
  finderPythons : List (String × String)
  sysVersion : String
  sysExecutable : String
  requires : String → Bool
  requiresStr : String

/-- Failures of `python_executable`: an unswallowed probe exception at step
2, or `NoPythonVersion` naming the unmet constraint. -/
inductive PyErr
  | probeError
  | noPython (constraint : String)
  deriving DecidableEq, Repr

/-- The runtime chosen when no `python` executable is on the search path:
the first `pythonfinder` runtime satisfying `python_requires`, else the
running interpreter when its version satisfies it. -/
def findCompatible (w : PyWorld) : Option String :=
  match w.finderPythons.find? (fun pv => w.requires pv.2) with
  | some pv => some pv.1
  | none => if w.requires w.sysVersion then some w.sysExecutable else none

/-- Steps 2-4 of the chain (the code after the configured-path block).  On
success the result pairs the chosen path with the value persisted into the
configuration (`some` exactly when the persistence block ran). -/
def pythonExecutableSearch (w : PyWorld) : Except PyErr (String × Option String) :=
  match w.whichPython with
  | some p =>
    match w.probe p with
    | some _ => .ok (p, some p)
    | none => .error .probeError
  | none =>
    match findCompatible w with
    | some p => .ok (p, some p)
    | none => .error (.noPython w.requiresStr)

/-- Embedding of `Environment.python_executable`: the configured path is
returned directly when probing succeeds (no persistence), any probe failure
is swallowed and falls through to the search chain. -/
def pythonExecutable (w : PyWorld) : Except PyErr (String × Option String) :=
  match w.configPython with
  | some p =>
    match w.probe p with
    | some _ => .ok (p, none)
    | none => pythonExecutableSearch w
  | none => pythonExecutableSearch w

/-- The claim's reading of step 2, for refinement comparison: the first
`python`-named executable on the search path is used only *if its probed
version is usable* (satisfies `python_requires`), otherwise resolution falls
through to the installed-runtimes enumeration. -/
def pythonExecutableClaimed (w : PyWorld) : Except PyErr (String × Option String) :=
  let search : Except PyErr (String × Option String) :=
    match w.whichPython with
    | some p =>
      match w.probe p with
      | some v =>
        if w.requires v then .ok (p, some p)
        else match findCompatible w with
          | some q => .ok (q, some q)
          | none => .error (.noPython w.requiresStr)
      | none => .error .probeError
    | none =>
      match findCompatible w with
      | some p => .ok (p, some p)
      | none => .error (.noPython w.requiresStr)
  match w.configPython with
  | some p =>
    match w.probe p with
    | some _ => .ok (p, none)
    | none => search
  | none => search

/-- World falsifying the claimed step-2 behaviour: `python` on the search
path probes to version 2.7.0, which does not satisfy `python_requires`,
while an installed runtime satisfying it exists. -/
def cexWorld : PyWorld :=
  { configPython := none
    probe := fun _ => some "2.7.0"
    whichPython := some "/usr/bin/python"
    finderPythons := [("/opt/py38/bin/python3.8", "3.8.0")]
    sysVersion := "2.7.0"
    sysExecutable := "/usr/bin/python"
    requires := fun v => v == "3.8.0"
    requiresStr := ">=3.8" }

/-- Step 1 does not short-circuit: either no `python` key is configured or
probing the configured path raises (and the exception is swallowed). -/
def configUnusable (w : PyWorld) : Prop :=
  ∀ p, w.configPython = some p → w.probe p = none

/-! ## `get_requirements_from_dist` (candidates.py lines 30-55)

The dependency map of a distribution is keyed by extra name, with an
optional inline marker after a `:`.  Keys with an empty extra are always
included; other keys are included when `safe_extra(name)` is among the
requested extras, attaching the inline marker to each requirement before
rendering it back to a line.  Every distinct extra name seen is recorded,
and requested extras not seen produce a non-fatal `ExtrasError` warning. -/

/-- Characters kept verbatim by `pkg_resources.safe_extra`'s regular
expression class `[A-Za-z0-9.-]`. -/
def safeExtraChar (c : Char) : Bool :=
  (c ≥ 'A' && c ≤ 'Z') || (c ≥ 'a' && c ≤ 'z') || (c ≥ '0' && c ≤ '9') ||
    c == '.' || c == '-'

/-- Worker for `safe_extra`: each maximal run of characters outside
`[A-Za-z0-9.-]` collapses to a single `_` (the regex substitution), and the
result is lowercased.  `prevBad` records whether the previous character
belonged to such a run. -/
def safeExtraAux : Bool → List Char → List Char
  | _, [] => []
  | prevBad, c :: rest =>
    if safeExtraChar c then c.toLower :: safeExtraAux false rest
    else if prevBad then safeExtraAux true rest
    else '_' :: safeExtraAux true rest

/-- Embedding of `pkg_resources.safe_extra`:
`re.sub('[^A-Za-z0-9.-]+', '_', extra).lower()`. -/
def safe_extra (s : String) : String := ⟨safeExtraAux false s.data⟩

/-- Worker for `partitionColon`: the characters before and after the first
`:` (the whole input and nothing when there is no `:`). -/
def partitionColonAux : List Char → List Char × List Char
  | [] => ([], [])
  | c :: rest =>
    if c = ':' then ([], rest)
    else
      let p := partitionColonAux rest
      (c :: p.1, p.2)

/-- Embedding of Python's `str.partition(":")` restricted to the two used
components: the text before the first `:` and the text after it (empty when
there is no `:`; the separator itself is discarded by the caller). -/
def partitionColon (s : String) : String × String :=
  let p := partitionColonAux s.data
  (⟨p.1⟩, ⟨p.2⟩)

/-- Python's whitespace test used by `str.strip()`. -/
def isSpaceChar (c : Char) : Bool :=
  c = ' ' || c = '\t' || c = '\n' || c = '\r' || c = '\x0b' || c = '\x0c'

/-- Embedding of Python's `str.strip()`: drop leading and trailing
whitespace. -/
def pyStrip (s : String) : String :=
  ⟨((s.data.dropWhile isSpaceChar).reverse.dropWhile isSpaceChar).reverse⟩

/-- Modelled from the spec: `Requirement.as_line` (pdm.models.requirements,
not under `src/`) renders a requirement back to a single line with its
marker attached (spec section 4.2: "each raw dependency line has the inline
marker (if any) attached before being rendered back to a single
requirement-line string"). -/
def asLine (line : String) (marker : Option String) : String :=
  match marker with
  | some m => line ++ "; " ++ m
  | none => line

/-- The loop of `get_requirements_from_dist` over `dep_map.items()` in
iteration order, returning the collected requirement lines and the
`extras_in_metadata` list of stripped extra names seen on non-empty keys. -/
def processDepMap (extras : List String) :
    List (String × List String) → List String × List String
  | [] => ([], [])
  | (extra, reqs) :: rest =>
    let (r, m) := processDepMap extras rest
    if extra = "" then
      (reqs.map (fun s => asLine s none) ++ r, m)
    else
      let p := partitionColon extra
      let ne := pyStrip p.1
      if ne = "" || extras.contains (safe_extra ne) then
        let mk := if p.2 = "" then none else some p.2
        (reqs.map (fun s => asLine s mk) ++ r, ne :: m)
      else (r, ne :: m)

/-- Embedding of `get_requirements_from_dist`: the distribution is given by
its dependency map (key/requirement-lines pairs in iteration order).  The
result pairs the requirement lines with the `extras_not_found` list; the
source warns with `ExtrasError(extras_not_found)` exactly when that list is
non-empty. -/
def get_requirements_from_dist (depMap : List (String × List String))
    (extras : List String) : List String × List String :=
  let (result, extrasInMetadata) := processDepMap extras depMap
  (result, extras.filter (fun e => !extrasInMetadata.contains e))

/-- The dependency map of the claim's concrete distribution. -/
def c5DepMap : List (String × List String) :=
  [("", ["a"]), ("extra1", ["b"]), ("extra1:platform_system!='Darwin'", ["c"])]

/-! ## `Candidate.requires_python` (candidates.py lines 193-217)

The getter returns the explicit override when set; otherwise it reads
`self.link.requires_python or ""` (an `AttributeError` when `self.link` is
`None`), falls back to metadata (`metadata.requires_python`, or on
`AttributeError` the `_legacy` value defaulting to `"UNKNOWN"`), maps empty
or `"UNKNOWN"` to `""`, and normalizes a bare digit string `n` to
`">=n,<n+1"`. -/

/-- The fields of a resolved download link read by `requires_python`
(`link.requires_python` may be `None`). -/
structure RPLink where
  requires_python : Option String
  deriving DecidableEq, Repr

/-- The metadata fields read by `requires_python`: the `requires_python`
attribute (`none` models a raised `AttributeError`) and the `_legacy`
object's attribute read with `getattr(..., "UNKNOWN")` as default. -/
structure RPMeta where
  requires_python : Option String
  legacy_requires_python : Option String
  deriving DecidableEq, Repr

/-- The candidate state read by the `requires_python` getter. -/
structure RPCand where
  overrideRP : Option String
  link : Option RPLink
  metadata : Option RPMeta
  deriving DecidableEq, Repr

/-- The error raised by the getter: dereferencing `self.link` when it is
`None`. -/
inductive RPErr
  | attributeError
  deriving DecidableEq, Repr

/-- The `try/except AttributeError` chain reading the metadata's
requires-python value. -/
def metaRequiresPython (m : RPMeta) : String :=
  match m.requires_python with
  | some v => v
  | none => m.legacy_requires_python.getD "UNKNOWN"

/-- Python's `str.isdigit` on ASCII content: non-empty and all digits. -/
def isDigitStr (s : String) : Bool :=
  !s.isEmpty && s.data.all Char.isDigit

/-- Python's `int(...)` on a digit string. -/
def strToNat (s : String) : Nat :=
  s.data.foldl (fun a c => a * 10 + (c.toNat - 48)) 0

/-- Decimal rendering worker: prepend the digits of `n`, spending fuel. -/
def natToCharsAux : Nat → Nat → List Char → List Char
  | 0, _, acc => acc
  | fuel + 1, n, acc =>
    let d := Char.ofNat (48 + n % 10)
    if n < 10 then d :: acc
    else natToCharsAux fuel (n / 10) (d :: acc)

/-- Python's `str(...)` on a natural number. -/
def natToString (n : Nat) : String :=
  ⟨natToCharsAux (n + 1) n []⟩

/-- The final bare-digit normalization step of the getter:
`f">={s},<{int(s) + 1}"`. -/
def normalizeDigit (s : String) : String :=
  if isDigitStr s then ">=" ++ s ++ ",<" ++ natToString (strToNat s + 1)
  else s

/-- Embedding of the `Candidate.requires_python` getter. -/
def requiresPython (c : RPCand) : Except RPErr String :=
  match c.overrideRP with
  | some v => .ok v
  | none =>
    match c.link with
    | none => .error .attributeError
    | some lk =>
      let rp0 := lk.requires_python.getD ""
      let rp1 :=
        if rp0 = "" then
          match c.metadata with
          | some m =>
            let v := metaRequiresPython m
            if v = "" || v = "UNKNOWN" then "" else v
          | none => rp0
        else rp0
      .ok (normalizeDigit rp1)

/-! ## `Candidate.as_lockfile_entry` (candidates.py lines 219-236)

The entry starts from the keys `name, sections, version, extras, marker,
editable` (with `sections`/`extras` sorted and `marker` stringified or
`None`), adds `{req.vcs: req.repo, "revision": revision}` for VCS
requirements, else `path` or `url` for other non-named requirements, and
finally drops every key whose value is falsy. -/

/-- A lockfile-entry value, with Python truthiness: a string, a list of
strings, a boolean, or `None`. -/
inductive LV
  | str (s : String)
  | list (l : List String)
  | bool (b : Bool)
  | none
  deriving DecidableEq, Repr

/-- Python truthiness of a lockfile-entry value. -/
def LV.truthy : LV → Bool
  | .str s => !s.isEmpty
  | .list l => !l.isEmpty
  | .bool b => b
  | .none => false

/-- String comparison used to embed Python's `sorted` on strings. -/
def strLe (a b : String) : Bool := a ≤ b

/-- The candidate fields read by `as_lockfile_entry`.  `revision` stands for
the `revision` cached property's value, which the method only accesses on
the VCS branch; `path` carries `req.str_path` when `req.path` is set. -/
structure LockCand where
  name : Option String
  version : String
  sections : List String
  extras : List String
  marker : Option String
  editable : Bool
  isVcs : Bool
  vcsType : String
  repo : String
  revision : String
  isNamed : Bool
  path : Option String
  url : String
  deriving DecidableEq, Repr

/-- An optional string as a lockfile-entry value (`self.name`,
`str(self.marker) if self.marker else None`). -/
def optStrLV : Option String → LV
  | some s => .str s
  | Option.none => .none

/-- The initial `result` dictionary literal of `as_lockfile_entry`, in key
insertion order. -/
def lockBase (c : LockCand) : List (String × LV) :=
  [("name", optStrLV c.name),
   ("sections", .list (c.sections.mergeSort strLe)),
   ("version", .str c.version),
   ("extras", .list (c.extras.mergeSort strLe)),
   ("marker", optStrLV c.marker),
   ("editable", .bool c.editable)]

/-- The dictionary after the source-specific `result.update(...)` calls:
VCS requirements add the `req.vcs`-named key and `revision`; other non-named
requirements add `path` when `req.path` is set, else `url`. -/
def lockWithSrc (c : LockCand) : List (String × LV) :=
  if c.isVcs then
    lockBase c ++ [(c.vcsType, .str c.repo), ("revision", .str c.revision)]
  else if !c.isNamed then
    match c.path with
    | some p => lockBase c ++ [("path", .str p)]
    | Option.none => lockBase c ++ [("url", .str c.url)]
  else lockBase c

/-- Embedding of `Candidate.as_lockfile_entry` as an ordered key/value list
(Python dict insertion order), with the final truthiness filter
`{k: v for k, v in result.items() if v}`. -/
def as_lockfile_entry (c : LockCand) : List (String × LV) :=
  (lockWithSrc c).filter (fun kv => kv.2.truthy)

/-! ## `Environment.build` (environment.py lines 250-303)

`build` populates the link, prepares the source/build directory, and — unless
the requirement is an editable local directory — calls `shim_unpack`.  When
the populated link is a wheel, the unpack call runs in download-only mode
against the wheel cache (no unpack into the source directory; a freshly
downloaded file is copied back into the cache), and `build` returns the
wheel cache path for the link's filename without invoking any build backend.
Otherwise the source is unpacked and the editable or wheel builder runs. -/

/-- The observable steps of one `build` call, in order: the finder-based
link population, the `shim_unpack` call in unpack mode (fetch/unpack into
`ireq.source_dir`), the `shim_unpack` call in download-only mode (into the
wheel cache), the copy preserving a fresh download in the wheel cache, and
the two build backends. -/
inductive BuildAction
  | populateLink
  | unpackToSource
  | downloadOnly
  | copyToWheelCache
  | invokeEditableBuilder
  | invokeWheelBuilder
  deriving DecidableEq, Repr

/-- The `InstallRequirement` fields `build` branches on. -/
structure BuildReq where
  editable : Bool
  isLocalDir : Bool
  linkIsWheel : Bool
  linkFilename : String
  deriving DecidableEq, Repr

/-- The binary-archive (wheel) cache directory, `context.cache("wheels")`. -/
def wheelCacheDir : String := "<cache>/wheels"

/-- Modelled from the spec: `shim_unpack` (a `pip` shim, not under `src/`)
fetches the link and unpacks it into the source directory, or in
download-only mode only downloads into the given cache directory (spec
section 4.8 steps 3 and 5); its return value reports a freshly downloaded
file.  `freshDownload` abstracts that return value. -/
def unpackActions (r : BuildReq) (freshDownload : Bool) : List BuildAction :=
  if !(r.editable && r.isLocalDir) then
    if r.linkIsWheel then
      .downloadOnly :: (if freshDownload then [.copyToWheelCache] else [])
    else [.unpackToSource]
  else []

/-- Embedding of `Environment.build` as the list of observable actions it
performs together with the returned artifact path.  `builderArtifact` is the
path the invoked build backend would return. -/
def build (r : BuildReq) (freshDownload : Bool) (builderArtifact : String) :
    List BuildAction × String :=
  let acts := BuildAction.populateLink :: unpackActions r freshDownload
  if r.linkIsWheel then
    (acts, wheelCacheDir ++ "/" ++ r.linkFilename)
  else
    (acts ++ [if r.editable then .invokeEditableBuilder else .invokeWheelBuilder],
     builderArtifact)

/-! ## Concrete instances used by witnesses -/

/-- A candidate before its first build: nothing cached, no build run yet. -/
def freshCand : MCand :=
  { editable := false, isLocalDir := false, isVcs := false, name := none
    version := none, metadata := none, link := none, buildCount := 0 }

/-- An editable candidate whose requirement is neither a local directory nor
a VCS location. -/
def badEditableCand : MCand :=
  { freshCand with editable := true }

/-- Metadata produced by a concrete build. -/
def distW : Dist := { name := "requests", version := "2.19.1" }

/-- A link-based candidate of a VCS requirement, ready for lockfile
serialization. -/
def vcsLockCand : LockCand :=
  { name := some "req", version := "1.0", sections := ["default", "dev"]
    extras := ["b", "a"], marker := none, editable := false, isVcs := true
    vcsType := "git", repo := "https://g.com/x.git", revision := "abc123"
    isNamed := false, path := none, url := "" }

/-- A candidate of a local-path requirement, ready for lockfile
serialization. -/
def pathLockCand : LockCand :=
  { vcsLockCand with isVcs := false, path := some "./local" }

/-- A resolved-as-wheel install requirement. -/
def wheelReq : BuildReq :=
  { editable := false, isLocalDir := false, linkIsWheel := true
    linkFilename := "foo-1.0-py3-none-any.whl" }

/-- A candidate whose link declares the bare requires-python value `"3"`. -/
def rpDigitCand : RPCand :=
  { overrideRP := none, link := some ⟨some "3"⟩, metadata := none }

/-- A candidate with no link and no explicit requires-python override. -/
def rpNoLinkCand : RPCand :=
  { overrideRP := none, link := none, metadata := some ⟨some ">=3.6", none⟩ }

/-! ## Theorems -/

/-- Claim C1: the `activate` scope would restore every replaced piece of
process-wide state on exit whether the body returns or raises.  The code
contradicts this — its own save/restore structure shows restoration is
intended, but the restoration statements sit after the `yield` with no
`try/finally` — so this theorem records the behaviour at the failing input:
a normally-returning body restores everything, while a raising body leaves
all four patched globals (working set, marker evaluator, locality predicate,
site-packages path) holding the environment's values, not the saved ones. -/
theorem activate_leaks_hooks_on_error :
    activateRun "purelib" "scripts" "pyroot" ⟨1, 1, 1, 1⟩ false
        ⟨none, "PATH0", ⟨0, 0, 0, 0⟩⟩ = ⟨none, "PATH0", ⟨0, 0, 0, 0⟩⟩ ∧
    (activateRun "purelib" "scripts" "pyroot" ⟨1, 1, 1, 1⟩ true
        ⟨none, "PATH0", ⟨0, 0, 0, 0⟩⟩).hooks = ⟨1, 1, 1, 1⟩ ∧
    activateRun "purelib" "scripts" "pyroot" ⟨1, 1, 1, 1⟩ true
        ⟨none, "PATH0", ⟨0, 0, 0, 0⟩⟩ ≠ ⟨none, "PATH0", ⟨0, 0, 0, 0⟩⟩ := by
  refine ⟨rfl, rfl, ?_⟩
  intro h
  exact absurd (congrArg (fun g => g.hooks.workingSet) h) (by decide)

/-- Claim C2 counterexample: a named candidate *is* equal (by
`Candidate.__eq__`) to a link-based candidate sharing its name and version,
because `__eq__` branches only on the left operand's requirement kind — the
claim's "never equal across partitions" clause fails. -/
theorem candidateEq_conflates_named_and_link :
    namedFoo.reqIsNamed = true ∧ linkFoo.reqIsNamed = false ∧
    namedFoo.name = linkFoo.name ∧ namedFoo.version = linkFoo.version ∧
    candidateEq namedFoo linkFoo = true := by
  decide

/-- Characterization of `Candidate.__eq__`: the comparison performed is
chosen by the left operand's requirement kind alone. -/
theorem candidateEq_true_iff (a b : EqCand) :
    candidateEq a b = true ↔
      ((a.reqIsNamed = true ∧ a.name = b.name ∧ a.version = b.version) ∨
       (a.reqIsNamed = false ∧ a.name = b.name ∧ a.link = b.link)) := by
  unfold candidateEq
  cases h : a.reqIsNamed <;> simp [h]

/-- Claim C2 (amended): candidate equality is reflexive, and symmetric and
transitive between candidates whose requirements have the same source kind;
equality holds iff the *left* operand's requirement is named and both name
and version agree, or the left operand's requirement is non-named and both
name and link agree.  Across partitions equality is not symmetric and a
named candidate can equal a link-based one sharing its name and version. -/
theorem candidateEq_partition_equivalence :
    (∀ a : EqCand, candidateEq a a = true) ∧
    (∀ a b : EqCand, a.reqIsNamed = b.reqIsNamed →
        candidateEq a b = true → candidateEq b a = true) ∧
    (∀ a b c : EqCand, a.reqIsNamed = b.reqIsNamed →
        b.reqIsNamed = c.reqIsNamed →
        candidateEq a b = true → candidateEq b c = true →
        candidateEq a c = true) ∧
    (∀ a b : EqCand, candidateEq a b = true ↔
        ((a.reqIsNamed = true ∧ a.name = b.name ∧ a.version = b.version) ∨
         (a.reqIsNamed = false ∧ a.name = b.name ∧ a.link = b.link))) := by
  refine ⟨?_, ?_, ?_, candidateEq_true_iff⟩
  · intro a
    rw [candidateEq_true_iff]
    cases h : a.reqIsNamed
    · exact Or.inr ⟨rfl, rfl, rfl⟩
    · exact Or.inl ⟨rfl, rfl, rfl⟩
  · intro a b hk h
    rw [candidateEq_true_iff] at h ⊢
    rcases h with ⟨h1, h2, h3⟩ | ⟨h1, h2, h3⟩
    · exact Or.inl ⟨hk ▸ h1, h2.symm, h3.symm⟩
    · exact Or.inr ⟨hk ▸ h1, h2.symm, h3.symm⟩
  · intro a b c hab hbc h1 h2
    rw [candidateEq_true_iff] at h1 h2 ⊢
    rcases h1 with ⟨g1, g2, g3⟩ | ⟨g1, g2, g3⟩ <;>
      rcases h2 with ⟨f1, f2, f3⟩ | ⟨f1, f2, f3⟩
    · exact Or.inl ⟨g1, g2.trans f2, g3.trans f3⟩
    · exact absurd (hab.symm.trans g1) (by rw [f1]; decide)
    · exact absurd (hab.symm.trans g1) (by rw [f1]; decide)
    · exact Or.inr ⟨g1, g2.trans f2, g3.trans f3⟩

/-- Witness for C2's amended theorem: symmetry applied to two concrete
link-based candidates. -/
theorem candidateEq_partition_equivalence_witness :
    candidateEq linkFoo linkFoo = true :=
  candidateEq_partition_equivalence.2.1 linkFoo linkFoo rfl (by decide)

/-- On a candidate whose metadata is already memoized, `get_metadata`
returns it and performs no state change. -/
theorem getMetadata_cached (br : BuildOutcome) (l : Option String)
    (c : MCand) (d : Dist) (h : c.metadata = some d) :
    getMetadata br l c = (.ok (some d), c) := by
  unfold getMetadata
  rw [h]

/-- A `get_metadata` call that returned metadata left it memoized on the
resulting candidate state. -/
theorem getMetadata_sets_cache (br : BuildOutcome) (l : Option String)
    (c : MCand) (d : Dist) (h : (getMetadata br l c).1 = .ok (some d)) :
    (getMetadata br l c).2.metadata = some d := by
  cases hm : c.metadata with
  | some m =>
    simp [getMetadata, hm] at h ⊢
    simp [hm, h]
  | none =>
    cases br with
    | error e => simp [getMetadata, hm] at h
    | ok d' =>
      by_cases hc : (c.editable && (!c.isLocalDir && !c.isVcs)) = true
      · simp [getMetadata, hm, hc] at h
      · simp [getMetadata, hm, hc] at h ⊢
        exact h

/-- Claim C3: `get_metadata` is idempotent — once a call has returned
metadata, any later call returns the same value and leaves the candidate
state (in particular the count of `Environment.build` invocations)
untouched, whatever build outcome that later call would have seen. -/
theorem getMetadata_idempotent (br br2 : BuildOutcome) (l l2 : Option String)
    (c : MCand) (d : Dist) (h : (getMetadata br l c).1 = .ok (some d)) :
    getMetadata br2 l2 (getMetadata br l c).2 =
      (.ok (some d), (getMetadata br l c).2) :=
  getMetadata_cached br2 l2 _ d (getMetadata_sets_cache br l c d h)

/-- Witness for C3: a fresh candidate built once; the second call returns
the cached metadata on the unchanged state. -/
theorem getMetadata_idempotent_witness :
    getMetadata (.ok distW) none (getMetadata (.ok distW) none freshCand).2 =
      (.ok (some distW), (getMetadata (.ok distW) none freshCand).2) :=
  getMetadata_idempotent (.ok distW) (.ok distW) none none freshCand distW
    rfl

/-- Claim C9: for an editable requirement that is neither a local directory
nor a VCS location, `get_metadata` raises `RequirementError` only *after*
`Environment.build` has run — the failing call still performs the build side
effect (the invocation count grows by one). -/
theorem getMetadata_editable_error_after_build (d : Dist) (l : Option String)
    (c : MCand) (hm : c.metadata = none) (he : c.editable = true)
    (hl : c.isLocalDir = false) (hv : c.isVcs = false) :
    (getMetadata (.ok d) l c).1 = .error .requirementError ∧
    (getMetadata (.ok d) l c).2.buildCount = c.buildCount + 1 := by
  unfold getMetadata
  simp [hm, he, hl, hv]

/-- Witness for C9: the concrete bad editable candidate errors with the
build already counted. -/
theorem getMetadata_editable_error_after_build_witness :
    (getMetadata (.ok distW) none badEditableCand).1 =
        .error .requirementError ∧
    (getMetadata (.ok distW) none badEditableCand).2.buildCount =
        badEditableCand.buildCount + 1 :=
  getMetadata_editable_error_after_build distW none badEditableCand
    rfl rfl rfl rfl

/-- Claim C4 counterexample: in `cexWorld` the `python` executable on the
search path probes to a version that does *not* satisfy `python_requires`
while an installed runtime satisfying it exists, yet `python_executable`
returns the search-path executable — the code never validates step 2's
probed version and never reaches step 3, contradicting the claimed chain
(whose reading, `pythonExecutableClaimed`, picks the installed runtime). -/
theorem pythonExecutable_which_counterexample :
    cexWorld.whichPython = some "/usr/bin/python" ∧
    cexWorld.probe "/usr/bin/python" = some "2.7.0" ∧
    cexWorld.requires "2.7.0" = false ∧
    (cexWorld.finderPythons.find? (fun pv => cexWorld.requires pv.2)) =
      some ("/opt/py38/bin/python3.8", "3.8.0") ∧
    pythonExecutable cexWorld =
      .ok ("/usr/bin/python", some "/usr/bin/python") ∧
    pythonExecutableClaimed cexWorld =
      .ok ("/opt/py38/bin/python3.8", some "/opt/py38/bin/python3.8") :=
  ⟨rfl, rfl, rfl, rfl, rfl, rfl⟩

/-- When step 1 yields nothing, `python_executable` runs the search chain. -/
theorem pythonExecutable_eq_search (w : PyWorld) (hcu : configUnusable w) :
    pythonExecutable w = pythonExecutableSearch w := by
  cases hc : w.configPython with
  | none => simp [pythonExecutable, hc]
  | some p => simp [pythonExecutable, hc, hcu p hc]

/-- Claim C4 (amended): the interpreter is resolved by — (1) the configured
path when probing it succeeds (probe failure swallowed, falls through, and
this step skips the persistence side effect); (2) the first `python`-named
executable on the search path, returned *unconditionally* (its version is
probed only for display; a probe failure here propagates); (3) only when no
`python`-named executable is on the search path, the first discoverable
installed runtime whose version satisfies `python_requires`; (4) else the
running interpreter's path when its version satisfies `python_requires`;
otherwise a no-compatible-runtime error naming the unmet constraint.  Steps
2-4 persist the chosen path into the configuration. -/
theorem pythonExecutable_chain (w : PyWorld) :
    (∀ p v, w.configPython = some p → w.probe p = some v →
        pythonExecutable w = .ok (p, none)) ∧
    (configUnusable w → ∀ q v, w.whichPython = some q → w.probe q = some v →
        pythonExecutable w = .ok (q, some q)) ∧
    (configUnusable w → ∀ q, w.whichPython = some q → w.probe q = none →
        pythonExecutable w = .error .probeError) ∧
    (configUnusable w → w.whichPython = none → ∀ p,
        findCompatible w = some p → pythonExecutable w = .ok (p, some p)) ∧
    (configUnusable w → w.whichPython = none → findCompatible w = none →
        pythonExecutable w = .error (.noPython w.requiresStr)) := by
  refine ⟨?_, ?_, ?_, ?_, ?_⟩
  · intro p v hc hp
    simp [pythonExecutable, hc, hp]
  · intro hcu q v hq hp
    rw [pythonExecutable_eq_search w hcu]
    simp [pythonExecutableSearch, hq, hp]
  · intro hcu q hq hp
    rw [pythonExecutable_eq_search w hcu]
    simp [pythonExecutableSearch, hq, hp]
  · intro hcu hw p hf
    rw [pythonExecutable_eq_search w hcu]
    simp [pythonExecutableSearch, hw, hf]
  · intro hcu hw hf
    rw [pythonExecutable_eq_search w hcu]
    simp [pythonExecutableSearch, hw, hf]

/-- Witness for C4's amended theorem: step 2 applied in `cexWorld`, where
the search-path `python` is returned although its version fails
`python_requires`. -/
theorem pythonExecutable_chain_witness :
    pythonExecutable cexWorld =
      .ok ("/usr/bin/python", some "/usr/bin/python") :=
  (pythonExecutable_chain cexWorld).2.1
    (fun _p h => Option.noConfusion h) "/usr/bin/python" "2.7.0" rfl rfl

/-- Claim C5: on the dependency map
`{"": ["a"], "extra1": ["b"], "extra1:platform_system!='Darwin'": ["c"]}`,
requesting `{"extra1"}` yields `a`, `b`, and `c` with the inline marker
attached and no missing extras; requesting `{"extra2"}` yields only `a` and
leaves `extra2` in the `extras_not_found` list, which the source reports as
a non-fatal `ExtrasError` warning. -/
theorem get_requirements_extras_filtering :
    get_requirements_from_dist c5DepMap ["extra1"] =
      (["a", "b", "c; platform_system!='Darwin'"], []) ∧
    get_requirements_from_dist c5DepMap ["extra2"] = (["a"], ["extra2"]) :=
  ⟨by decide, by decide⟩

/-- Claim C6: with no explicit override and a present link, a bare digit
string `n` — whether declared on the link or, when the link carries none, in
built metadata — normalizes to `">=n,<n+1"`, while an absent or `"UNKNOWN"`
metadata value (and an absent link value with no metadata) normalizes to the
empty, unconstrained string. -/
theorem requiresPython_normalization (c : RPCand) (lk : RPLink)
    (hov : c.overrideRP = none) (hlk : c.link = some lk) :
    (∀ s, lk.requires_python = some s → isDigitStr s = true →
        requiresPython c =
          .ok (">=" ++ s ++ ",<" ++ natToString (strToNat s + 1))) ∧
    (∀ m s, lk.requires_python.getD "" = "" → c.metadata = some m →
        metaRequiresPython m = s → isDigitStr s = true →
        requiresPython c =
          .ok (">=" ++ s ++ ",<" ++ natToString (strToNat s + 1))) ∧
    (∀ m, lk.requires_python.getD "" = "" → c.metadata = some m →
        (metaRequiresPython m = "UNKNOWN" ∨ metaRequiresPython m = "") →
        requiresPython c = .ok "") ∧
    (lk.requires_python.getD "" = "" → c.metadata = none →
        requiresPython c = .ok "") := by
  refine ⟨?_, ?_, ?_, ?_⟩
  · intro s hs hd
    have hne : ¬ s = "" := by
      intro he
      rw [he] at hd
      exact absurd hd (by decide)
    simp [requiresPython, hov, hlk, hs, hne, normalizeDigit, hd]
  · intro m s h0 hm hv hd
    have hne : ¬ s = "" := by
      intro he
      rw [he] at hd
      exact absurd hd (by decide)
    have hnu : ¬ s = "UNKNOWN" := by
      intro he
      rw [he] at hd
      exact absurd hd (by decide)
    simp [requiresPython, hov, hlk, h0, hm, hv, hne, hnu, normalizeDigit, hd]
  · intro m h0 hm hv
    have hz : normalizeDigit "" = "" := by decide
    rcases hv with hv | hv <;>
      simp [requiresPython, hov, hlk, h0, hm, hv, hz]
  · intro h0 hm
    have hz : normalizeDigit "" = "" := by decide
    simp [requiresPython, hov, hlk, h0, hm, hz]

/-- Witness for C6: a candidate whose link declares `"3"` resolves to
`">=3,<4"`. -/
theorem requiresPython_normalization_witness :
    requiresPython rpDigitCand = .ok ">=3,<4" := by
  have h := (requiresPython_normalization rpDigitCand ⟨some "3"⟩ rfl rfl).1
    "3" rfl (by decide)
  have h2 : ">=" ++ "3" ++ ",<" ++ natToString (strToNat "3" + 1) =
      ">=3,<4" := by decide
  rw [h, h2]

/-- Claim C10: with no explicit override and no link, reading
`requires_python` dereferences `self.link` before any metadata fallback and
raises an `AttributeError` instead of returning the unconstrained empty
spec, whatever metadata the candidate carries. -/
theorem requiresPython_no_link_raises (c : RPCand)
    (hov : c.overrideRP = none) (hlk : c.link = none) :
    requiresPython c = .error .attributeError := by
  simp [requiresPython, hov, hlk]

/-- Witness for C10: the concrete link-less candidate with metadata
declaring `">=3.6"` still raises. -/
theorem requiresPython_no_link_raises_witness :
    requiresPython rpNoLinkCand = .error .attributeError :=
  requiresPython_no_link_raises rpNoLinkCand rfl rfl

/-- A non-empty string has `isEmpty = false`, hence is truthy. -/
theorem isEmpty_false_of_ne (s : String) (h : s ≠ "") : s.isEmpty = false := by
  rw [Bool.eq_false_iff]
  intro hh
  exact h ((String.isEmpty_iff s).mp hh)

/-- An optional-string lockfile value is never a list value. -/
theorem optStrLV_ne_list (o : Option String) (l : List String) :
    optStrLV o ≠ LV.list l := by
  cases o <;> simp [optStrLV]

/-- `mergeSort` under the embedded Python string order yields a list sorted
by `≤`. -/
theorem mergeSort_strLe_pairwise (l : List String) :
    (l.mergeSort strLe).Pairwise (fun a b => a ≤ b) := by
  have tr : ∀ a b c : String, strLe a b → strLe b c → strLe a c := by
    intro a b c hab hbc
    simp only [strLe, decide_eq_true_eq] at *
    exact le_trans hab hbc
  have tot : ∀ a b : String, strLe a b || strLe b a := by
    intro a b
    simp only [strLe, Bool.or_eq_true, decide_eq_true_eq]
    exact le_total a b
  exact (List.sorted_mergeSort tr tot l).imp
    (fun h => by simpa [strLe] using h)

/-- The only list-valued entries ever placed in the mapping are the sorted
`sections` and `extras`. -/
theorem lockWithSrc_list_mem (c : LockCand) (k : String) (l : List String)
    (h : (k, LV.list l) ∈ lockWithSrc c) :
    l = c.sections.mergeSort strLe ∨ l = c.extras.mergeSort strLe := by
  unfold lockWithSrc at h
  by_cases hv : c.isVcs = true
  · simp [hv, lockBase, optStrLV_ne_list, eq_comm] at h
    tauto
  · by_cases hn : c.isNamed = true
    · simp [hv, hn, lockBase, optStrLV_ne_list, eq_comm] at h
      tauto
    · cases hp : c.path with
      | some p =>
        simp [hv, hn, hp, lockBase, optStrLV_ne_list, eq_comm] at h
        tauto
      | none =>
        simp [hv, hn, hp, lockBase, optStrLV_ne_list, eq_comm] at h
        tauto

/-- Claim C7: every lockfile entry drops falsy values entirely; every
list-valued entry (`sections`, `extras`) is sorted; a VCS candidate's entry
contains the key named after the VCS type mapped to the repository plus a
`revision` key and no `path`/`url` key; a local-path candidate's entry
contains `path` and no VCS `revision` or `url` key. -/
theorem as_lockfile_entry_shape (c : LockCand) :
    (∀ kv, kv ∈ as_lockfile_entry c → LV.truthy kv.2 = true) ∧
    (∀ k l, (k, LV.list l) ∈ as_lockfile_entry c →
        l.Pairwise (fun a b : String => a ≤ b)) ∧
    (c.isVcs = true → c.vcsType ≠ "path" → c.vcsType ≠ "url" →
        (c.repo ≠ "" → (c.vcsType, LV.str c.repo) ∈ as_lockfile_entry c) ∧
        (c.revision ≠ "" →
            ("revision", LV.str c.revision) ∈ as_lockfile_entry c) ∧
        (∀ v, ("path", v) ∉ as_lockfile_entry c) ∧
        (∀ v, ("url", v) ∉ as_lockfile_entry c)) ∧
    (c.isVcs = false → c.isNamed = false → ∀ p, c.path = some p → p ≠ "" →
        ("path", LV.str p) ∈ as_lockfile_entry c ∧
        (∀ v, ("revision", v) ∉ as_lockfile_entry c) ∧
        (∀ v, ("url", v) ∉ as_lockfile_entry c)) := by
  refine ⟨?_, ?_, ?_, ?_⟩
  · intro kv h
    unfold as_lockfile_entry at h
    exact (List.mem_filter.mp h).2
  · intro k l h
    unfold as_lockfile_entry at h
    rcases lockWithSrc_list_mem c k l (List.mem_filter.mp h).1 with h2 | h2 <;>
      (subst h2; exact mergeSort_strLe_pairwise _)
  · intro hv hvp hvu
    refine ⟨?_, ?_, ?_, ?_⟩
    · intro hr
      unfold as_lockfile_entry
      rw [List.mem_filter]
      refine ⟨?_, ?_⟩
      · unfold lockWithSrc
        simp [hv]
      · simp [LV.truthy, isEmpty_false_of_ne _ hr]
    · intro hr
      unfold as_lockfile_entry
      rw [List.mem_filter]
      refine ⟨?_, ?_⟩
      · unfold lockWithSrc
        simp [hv]
      · simp [LV.truthy, isEmpty_false_of_ne _ hr]
    · intro v hmem
      have h1 := (List.mem_filter.mp hmem).1
      unfold lockWithSrc at h1
      simp [hv, lockBase, Ne.symm hvp] at h1
    · intro v hmem
      have h1 := (List.mem_filter.mp hmem).1
      unfold lockWithSrc at h1
      simp [hv, lockBase, Ne.symm hvu] at h1
  · intro hv hn p hp hpne
    refine ⟨?_, ?_, ?_⟩
    · unfold as_lockfile_entry
      rw [List.mem_filter]
      refine ⟨?_, ?_⟩
      · unfold lockWithSrc
        simp [hv, hn, hp]
      · simp [LV.truthy, isEmpty_false_of_ne _ hpne]
    · intro v hmem
      have h1 := (List.mem_filter.mp hmem).1
      unfold lockWithSrc at h1
      simp [hv, hn, hp, lockBase] at h1
    · intro v hmem
      have h1 := (List.mem_filter.mp hmem).1
      unfold lockWithSrc at h1
      simp [hv, hn, hp, lockBase] at h1

/-- Witness for C7: the concrete VCS candidate's entry contains the
`git` and `revision` keys. -/
theorem as_lockfile_entry_shape_witness :
    ("git", LV.str "https://g.com/x.git") ∈ as_lockfile_entry vcsLockCand ∧
    ("revision", LV.str "abc123") ∈ as_lockfile_entry vcsLockCand := by
  have h := (as_lockfile_entry_shape vcsLockCand).2.2.1 rfl
    (by decide) (by decide)
  exact ⟨h.1 (by decide), h.2.1 (by decide)⟩

/-- Claim C8: when the resolved link is a pre-built wheel, `build` performs
no unpack-into-source-directory step and invokes no build backend; it
returns the archive's path inside the wheel cache directory (after at most
a download-only fetch into that cache). -/
theorem build_wheel_returns_cached_archive (r : BuildReq) (fd : Bool)
    (art : String) (hw : r.linkIsWheel = true) :
    BuildAction.unpackToSource ∉ (build r fd art).1 ∧
    BuildAction.invokeEditableBuilder ∉ (build r fd art).1 ∧
    BuildAction.invokeWheelBuilder ∉ (build r fd art).1 ∧
    (build r fd art).2 = wheelCacheDir ++ "/" ++ r.linkFilename := by
  unfold build unpackActions
  by_cases he : (r.editable && r.isLocalDir) = true <;>
    cases fd <;> simp [hw, he]

/-- Witness for C8: the concrete wheel-backed requirement builds to the
cached archive path with no unpack and no backend invocation. -/
theorem build_wheel_returns_cached_archive_witness :
    BuildAction.unpackToSource ∉ (build wheelReq true "x").1 ∧
    BuildAction.invokeEditableBuilder ∉ (build wheelReq true "x").1 ∧
    BuildAction.invokeWheelBuilder ∉ (build wheelReq true "x").1 ∧
    (build wheelReq true "x").2 =
      wheelCacheDir ++ "/" ++ wheelReq.linkFilename :=
  build_wheel_returns_cached_archive wheelReq true "x" rfl

end PDM
